import Mathlib

/-!
# Admin page controller (`static/js/main.js`)

A shallow embedding of the browser script that drives the student administration page:
the image previewer, the image uploader, the card generator and the PDF exporter.

The document is a record of the parts of the DOM the script reads or writes.  Lookups that
the script dereferences without a null check (`.save-image-btn[...]`, `.student-image-input[...]`,
`#row-X td`, the `#card-*` elements) are total here; the one lookup the script does null-check,
`#row-X img.preview-temp`, returns an `Option`.  Effects on the outside world (`alert`, `fetch`,
`FileReader.readAsDataURL`) are appended to logs kept in the page state.  An image keeps the
text of its `src` attribute; reading the `src` property goes through the browser's URL
resolution, which the page carries as `resolveUrl`.  The asynchronous
continuations (`reader.onload`, the `then`/`catch` chain of `fetch`) are separate handlers that
the event loop runs later, on whatever page state exists at that time.
-/

namespace AdminPage

/-! ## Data model -/

/-- A file held by an `<input type="file">`; `dataUrl` is what
`FileReader.readAsDataURL` delivers for it in `e.target.result`. -/
structure File where
  name : String
  dataUrl : String
deriving DecidableEq, Repr

/-- An `<img>` element inside a student row.  `previewTemp` records membership of the class
`preview-temp`; the remaining fields are the attributes the script assigns.  `src` is the
text of the `src` attribute, which is what an assignment `img.src = v` stores. -/
structure Img where
  previewTemp : Bool
  src : String
  styleWidth : String
  styleMarginRight : String
  width : Option Nat
deriving DecidableEq, Repr

/-- The DOM state of one student row: `style.display` of its save button, the `files` of its
file input, and the `<img>` elements of the row in document order. -/
structure Row where
  saveDisplay : String
  files : List File
  imgs : List Img
deriving DecidableEq, Repr

/-- The modal `#idModal` with its `#card-*` elements. -/
structure Modal where
  name : String
  dept : String
  roll : String
  emergency : String
  address : String
  photoSrc : String
  shown : Bool
deriving DecidableEq, Repr

/-- The page: rows keyed by student id, the modal, and the logs of outside effects.
`resolveUrl` is the browser's resolution of a URL text against the URL of this document:
reading the `src` property of an image returns `resolveUrl` of its `src` attribute.  It is
fixed by the document and no handler changes it. -/
structure Page where
  rows : Nat → Row
  modal : Modal
  alerts : List String
  fetches : List (Nat × File)
  reads : List (Nat × File)
  resolveUrl : String → String

/-- A student record as parsed from the `data-student` attribute.  Text fields may be
missing from the JSON object (`none`). -/
structure Student where
  id : Nat
  name : Option String
  department : Option String
  roll_no : Option String
  emergency_contact : Option String
  address : Option String
  image : Option String
deriving DecidableEq, Repr

/-- The JSON body of an upload response. -/
structure UploadData where
  success : Bool
  filename : Option String
  message : Option String
deriving DecidableEq, Repr

/-- How the `fetch(...).then(r => r.json())` chain settles: with parsed data, or rejected
(network or JSON parse error); `err` is the text `'' + err` of the caught error. -/
inductive FetchOutcome where
  | json (data : UploadData)
  | failed (err : String)
deriving DecidableEq, Repr

/-! ## JavaScript value helpers -/

/-- Truthiness of an optional string: `undefined` and `''` are falsy. -/
def truthy : Option String → Bool
  | some s => !(s == "")
  | none => false

/-- The expression `v || d` for an optional string `v`. -/
def jsOr (v : Option String) (d : String) : String :=
  match v with
  | some s => if s = "" then d else s
  | none => d

/-- String concatenation operand: a missing property prints as `undefined`. -/
def jsStr : Option String → String
  | some s => s
  | none => "undefined"

/-! ## DOM helpers -/

/-- The result of `document.querySelector('#row-X img.preview-temp')` on the images of row X:
the first image carrying the class, if any. -/
def findPreview : List Img → Option Img
  | [] => none
  | i :: is => if i.previewTemp then some i else findPreview is

/-- Assigning `src` on the element returned by `findPreview`. -/
def setPreviewSrc (u : String) : List Img → List Img
  | [] => []
  | i :: is => if i.previewTemp then { i with src := u } :: is else i :: setPreviewSrc u is

/-- Number of `img.preview-temp` elements in a row. -/
def previewCount (l : List Img) : Nat :=
  (l.filter (fun i => i.previewTemp)).length

/-- Replace the state of row `x`. -/
def Page.setRow (p : Page) (x : Nat) (r : Row) : Page :=
  { p with rows := Function.update p.rows x r }

/-- The call `alert(msg)`. -/
def Page.alert (p : Page) (msg : String) : Page :=
  { p with alerts := p.alerts ++ [msg] }

/-! ## Image previewer (lines 14-38) -/

/-- The image created by `reader.onload` when the row has no preview yet. -/
def newPreview (result : String) : Img :=
  { previewTemp := true, src := result, styleWidth := "50px", styleMarginRight := "8px",
    width := none }

/-- The `change` listener of the file input of student `x`. -/
def onInputChange (p : Page) (x : Nat) : Page :=
  let r := p.rows x
  let p1 := p.setRow x { r with saveDisplay := "inline-block" }
  match r.files.head? with
  | some file => { p1 with reads := p1.reads ++ [(x, file)] }
  | none => p1

/-- The `reader.onload` callback registered by the `change` listener of student `x`;
`result` is `e.target.result`. -/
def onReaderLoad (p : Page) (x : Nat) (result : String) : Page :=
  let r := p.rows x
  match findPreview r.imgs with
  | some _ => p.setRow x { r with imgs := setPreviewSrc result r.imgs }
  | none => p.setRow x { r with imgs := newPreview result :: r.imgs }

/-! ## Image uploader (lines 41-72) -/

/-- The image created by the success branch when the row has no preview. -/
def finalImg (src : String) : Img :=
  { previewTemp := false, src := src, styleWidth := "", styleMarginRight := "",
    width := some 50 }

/-- The `click` listener of the save button of student `x`, up to and including the call
to `fetch`. -/
def onSaveClick (p : Page) (x : Nat) : Page :=
  match (p.rows x).files with
  | [] => p.alert "Choose an image first"
  | file :: _ => { p with fetches := p.fetches ++ [(x, file)] }

/-- The `then(data => ...)` / `catch(err => ...)` continuation of the upload for student `x`. -/
def onUploadDone (p : Page) (x : Nat) : FetchOutcome → Page
  | .json data =>
    if data.success then
      let p1 := p.alert "Image uploaded"
      let r := p1.rows x
      let r1 := { r with saveDisplay := "none" }
      let src := "/uploads/" ++ jsStr data.filename
      match findPreview r1.imgs with
      | some _ => p1.setRow x { r1 with imgs := setPreviewSrc src r1.imgs }
      | none => p1.setRow x { r1 with imgs := finalImg src :: r1.imgs }
    else
      p.alert ("Upload failed: " ++ jsStr data.message)
  | .failed err => p.alert ("Upload error: " ++ err)

/-! ## Card generator (lines 78-99) -/

/-- The value assigned to `photoEl.src`.  Line 91 reads the `src` property of the preview
node, so the value is the node's `src` attribute resolved by the browser (`resolveUrl`);
lines 93 and 95 assign the text built by the script. -/
def photoSource (resolveUrl : String → String) (imgs : List Img) (s : Student) : String :=
  match findPreview imgs with
  | some previewImg => resolveUrl previewImg.src
  | none => if truthy s.image then "/uploads/" ++ jsStr s.image else ""

/-- The `click` listener of a generate button whose `data-student` parses to `s`. -/
def onGenerateClick (p : Page) (s : Student) : Page :=
  { p with modal :=
      { name := jsOr s.name ""
        dept := jsOr s.department ""
        roll := jsOr s.roll_no ""
        emergency := jsOr s.emergency_contact "N/A"
        address := jsOr s.address "N/A"
        photoSrc := photoSource p.resolveUrl (p.rows s.id).imgs s
        shown := true } }

/-! ## Event loop -/

/-- The events the script reacts to.  `change x fs` is the browser storing the selection
`fs` in the file input of `x` and then dispatching `change`; `readerLoad x file` is the
completion of the read of `file` started for `x`. -/
inductive Event where
  | change (x : Nat) (fs : List File)
  | readerLoad (x : Nat) (file : File)
  | saveClick (x : Nat)
  | uploadDone (x : Nat) (o : FetchOutcome)
  | generateClick (s : Student)

/-- One turn of the event loop. -/
def step (p : Page) : Event → Page
  | .change x fs => onInputChange (p.setRow x { p.rows x with files := fs }) x
  | .readerLoad x file => onReaderLoad p x file.dataUrl
  | .saveClick x => onSaveClick p x
  | .uploadDone x o => onUploadDone p x o
  | .generateClick s => onGenerateClick p s

/-- A sequence of turns. -/
def run (p : Page) (evs : List Event) : Page :=
  evs.foldl step p

/-! ## PDF exporter (lines 102-138)

`html2canvas` and `jsPDF` are external libraries.  A capture either resolves with a canvas or
rejects.  A `jsPDF` document starts with one page; `addImage` draws on the current (last)
page and `addPage` appends a page and makes it current.  Numbers are exact rationals. -/

/-- The two captured regions, `#id-card-front` and `#id-card-back`. -/
inductive Region where
  | front
  | back
deriving DecidableEq, Repr

/-- A canvas delivered by `html2canvas`: the PNG data URL of `canvas.toDataURL('image/png')`
and the pixel size `pdf.getImageProperties` reports for it. -/
structure Canvas where
  data : String
  width : ℚ
  height : ℚ
deriving DecidableEq

/-- The arguments of one `pdf.addImage(imgData, format, x, y, w, h)` call. -/
structure Placed where
  data : String
  format : String
  x : ℚ
  y : ℚ
  w : ℚ
  h : ℚ
deriving DecidableEq

/-- A `jsPDF` document: its pages in order, each with the images drawn on it. -/
structure Pdf where
  pages : List (List Placed)
deriving DecidableEq

/-- The document `new jsPDF(...)`. -/
def Pdf.create : Pdf := ⟨[[]]⟩

/-- The call `pdf.addPage()`. -/
def Pdf.addPage (d : Pdf) : Pdf := ⟨d.pages ++ [[]]⟩

/-- The call `pdf.addImage(...)`, drawing on the current page. -/
def Pdf.addImage (d : Pdf) (im : Placed) : Pdf :=
  match d.pages.reverse with
  | [] => ⟨[[im]]⟩
  | cur :: before => ⟨(before.reverse) ++ [cur ++ [im]]⟩

/-- The calls the handler makes on the libraries, in the order it makes them. -/
inductive Op where
  | capture (r : Region)
  | addImage (im : Placed)
  | addPage
  | save (filename : String)
deriving DecidableEq

/-- The state of one run of the download handler: the document being assembled, the calls
made so far, and the file handed to the browser by `pdf.save`, if it was reached. -/
structure Session where
  pdf : Pdf
  trace : List Op
  saved : Option (String × Pdf)
deriving DecidableEq

/-- The body of each `then(canvas => ...)` callback: the image placed for a canvas on a page
of width `pageWidth`. -/
def placeImage (pageWidth : ℚ) (canvas : Canvas) : Placed :=
  let imgWidth := pageWidth - 40
  let imgHeight := (canvas.height * imgWidth) / canvas.width
  { data := canvas.data, format := "PNG", x := 20, y := 20, w := imgWidth, h := imgHeight }

/-- One `await html2canvas(region, ...).then(canvas => ...)` statement.  When the capture
rejects, the `await` throws and the handler stops (`Except.error` carries the state reached). -/
def captureAndAdd (capture : Region → Option Canvas) (pageWidth : ℚ) (r : Region)
    (s : Session) : Except Session Session :=
  let s1 := { s with trace := s.trace ++ [Op.capture r] }
  match capture r with
  | none => .error s1
  | some canvas =>
    let im := placeImage pageWidth canvas
    .ok { s1 with pdf := s1.pdf.addImage im, trace := s1.trace ++ [Op.addImage im] }

/-- The `click` listener of `#downloadPdfBtn`.  `capture r` is the outcome of
`html2canvas` on region `r` (`none` when it rejects), `pageWidth` is
`pdf.internal.pageSize.getWidth()` and `now` is `Date.now()`. -/
def onDownloadClick (capture : Region → Option Canvas) (pageWidth : ℚ) (now : Nat) : Session :=
  let s0 : Session := { pdf := Pdf.create, trace := [], saved := none }
  match captureAndAdd capture pageWidth .front s0 with
  | .error s => s
  | .ok s1 =>
    let s2 := { s1 with pdf := s1.pdf.addPage, trace := s1.trace ++ [Op.addPage] }
    match captureAndAdd capture pageWidth .back s2 with
    | .error s => s
    | .ok s3 =>
      let filename := "id_card_" ++ toString now ++ ".pdf"
      { s3 with trace := s3.trace ++ [Op.save filename], saved := some (filename, s3.pdf) }

/-! ## Concrete pages and inputs -/

/-- A modal that has not been filled yet. -/
def blankModal : Modal :=
  { name := "", dept := "", roll := "", emergency := "", address := "", photoSrc := "",
    shown := false }

/-- Modelled on the browser, for a document served from `origin` and for the two shapes of
URL text the script stores in a `src` attribute: a path that starts with `/` resolves to the
origin followed by the path, and an absolute URL such as a data URL resolves to itself. -/
def resolveAt (origin : String) (u : String) : String :=
  match u.data with
  | '/' :: _ => origin ++ u
  | _ => u

/-- A freshly loaded page served from `http://host`: no row holds an image or a selected
file, nothing was logged. -/
def freshPage : Page :=
  { rows := fun _ => { saveDisplay := "", files := [], imgs := [] }
    modal := blankModal, alerts := [], fetches := [], reads := []
    resolveUrl := resolveAt "http://host" }

/-- A locally selected picture. -/
def photoFile : File := { name := "me.png", dataUrl := "data:image/png;base64,AAAA" }

/-- A page on which row 7 shows a local preview of `photoFile`. -/
def previewPage : Page :=
  freshPage.setRow 7
    { saveDisplay := "inline-block", files := [photoFile], imgs := [newPreview photoFile.dataUrl] }

/-- A page on which the save button of row 7 is hidden and its file input is empty. -/
def hiddenPage : Page :=
  freshPage.setRow 7 { saveDisplay := "none", files := [], imgs := [] }

/-- A record with every field present. -/
def fullStudent : Student :=
  { id := 7, name := some "Ada", department := some "CS", roll_no := some "R-1",
    emergency_contact := some "0300", address := some "Karachi", image := some "old.jpg" }

/-- A record without an image. -/
def bareStudent : Student :=
  { id := 7, name := some "Ada", department := none, roll_no := none,
    emergency_contact := none, address := none, image := none }

/-- A record whose emergency contact and address are present but empty. -/
def emptyContactStudent : Student :=
  { id := 7, name := some "Ada", department := some "CS", roll_no := some "R-1",
    emergency_contact := some "", address := some "", image := none }

/-- A capture of the front region, 600 by 400 pixels. -/
def frontCanvas : Canvas := { data := "data:image/png;base64,FRONT", width := 600, height := 400 }

/-- A capture of the back region, 600 by 300 pixels. -/
def backCanvas : Canvas := { data := "data:image/png;base64,BACK", width := 600, height := 300 }

/-- Both captures resolve. -/
def bothCaptured : Region → Option Canvas
  | .front => some frontCanvas
  | .back => some backCanvas

/-- The capture of the back region rejects. -/
def backRejected : Region → Option Canvas
  | .front => some frontCanvas
  | .back => none

/-- A successful upload for row 7 whose response arrives before the read of the selected
file has completed: select `photoFile`, click save, receive
`{success: true, filename: "a.jpg"}`, then the read completes. -/
def uploadBeforeRead : List Event :=
  [.change 7 [photoFile], .saveClick 7, .uploadDone 7 (.json ⟨true, some "a.jpg", none⟩),
   .readerLoad 7 photoFile]

/-- The page reached from a fresh load by the usual upload of a picture for row 7: select
`photoFile`, the read completes and the preview appears, click save, receive
`{success: true, filename: "a.jpg"}`. -/
def uploadedPage : Page :=
  run freshPage
    [.change 7 [photoFile], .readerLoad 7 photoFile, .saveClick 7,
     .uploadDone 7 (.json ⟨true, some "a.jpg", none⟩)]

/-- A page on which row 7 holds one thumbnail that is not an `img.preview-temp`. -/
def thumbPage : Page :=
  freshPage.setRow 7 { saveDisplay := "none", files := [], imgs := [finalImg "/uploads/old.jpg"] }

/-! ## Helper lemmas -/

theorem findPreview_some_mem {l : List Img} {i : Img} (h : findPreview l = some i) :
    i ∈ l ∧ i.previewTemp = true := by
  induction l with
  | nil => simp [findPreview] at h
  | cons a t ih =>
    unfold findPreview at h
    by_cases ha : a.previewTemp = true
    · simp [ha] at h
      subst h
      exact ⟨List.mem_cons_self _ _, ha⟩
    · simp [ha] at h
      exact ⟨List.mem_cons_of_mem _ (ih h).1, (ih h).2⟩

theorem findPreview_eq_none_iff (l : List Img) :
    findPreview l = none ↔ ∀ i ∈ l, i.previewTemp = false := by
  induction l with
  | nil => simp [findPreview]
  | cons a t ih =>
    unfold findPreview
    by_cases ha : a.previewTemp = true
    · simp [ha]
    · simp [ha, ih]

theorem findPreview_setPreviewSrc (u : String) (l : List Img) (i : Img)
    (h : findPreview l = some i) :
    findPreview (setPreviewSrc u l) = some { i with src := u } := by
  induction l with
  | nil => simp [findPreview] at h
  | cons a t ih =>
    unfold findPreview at h
    unfold setPreviewSrc
    by_cases ha : a.previewTemp = true
    · simp [ha] at h
      subst h
      simp [ha, findPreview]
    · simp [ha] at h
      simp [ha, findPreview, ih h]

theorem length_setPreviewSrc (u : String) (l : List Img) :
    (setPreviewSrc u l).length = l.length := by
  induction l with
  | nil => rfl
  | cons a t ih =>
    unfold setPreviewSrc
    by_cases ha : a.previewTemp = true <;> simp [ha, ih]

theorem previewCount_setPreviewSrc (u : String) (l : List Img) :
    previewCount (setPreviewSrc u l) = previewCount l := by
  induction l with
  | nil => rfl
  | cons a t ih =>
    unfold setPreviewSrc
    by_cases ha : a.previewTemp = true
    · simp [ha, previewCount]
    · simp only [previewCount] at ih
      simp [ha, previewCount, ih]

theorem previewCount_of_findPreview_none {l : List Img} (h : findPreview l = none) :
    previewCount l = 0 := by
  rw [findPreview_eq_none_iff] at h
  simp only [previewCount, List.length_eq_zero, List.filter_eq_nil_iff]
  intro i hi
  simp [h i hi]

theorem setRow_rows_same (p : Page) (x : Nat) (r : Row) : (p.setRow x r).rows x = r := by
  simp [Page.setRow]

theorem setRow_rows_ne (p : Page) (x y : Nat) (r : Row) (h : y ≠ x) :
    (p.setRow x r).rows y = p.rows y := by
  simp [Page.setRow, Function.update_noteq h]

theorem download_saved_of_both (capture : Region → Option Canvas) (pageWidth : ℚ) (now : Nat)
    (c1 c2 : Canvas) (h1 : capture .front = some c1) (h2 : capture .back = some c2) :
    (onDownloadClick capture pageWidth now).saved
      = some ("id_card_" ++ toString now ++ ".pdf",
              ⟨[[placeImage pageWidth c1], [placeImage pageWidth c2]]⟩) := by
  simp [onDownloadClick, captureAndAdd, h1, h2, Pdf.create, Pdf.addImage, Pdf.addPage]

theorem placeImage_aspect (W : ℚ) (c : Canvas) (hw : 0 < c.width) :
    (placeImage W c).h * c.width = c.height * (placeImage W c).w := by
  have hne : c.width ≠ 0 := ne_of_gt hw
  simp only [placeImage]
  field_simp

theorem setRow_rows (p : Page) (x y : Nat) (r : Row) :
    (p.setRow x r).rows y = if y = x then r else p.rows y := by
  by_cases h : y = x
  · subst h; simp [Page.setRow]
  · simp [Page.setRow, Function.update_noteq h, h]

theorem onInputChange_imgs (p : Page) (x y : Nat) :
    ((onInputChange p x).rows y).imgs = (p.rows y).imgs := by
  have hq : (onInputChange p x).rows
      = (p.setRow x { p.rows x with saveDisplay := "inline-block" }).rows := by
    simp only [onInputChange]
    cases (p.rows x).files.head? <;> rfl
  rw [hq, setRow_rows]
  by_cases h : y = x
  · subst h; simp
  · simp [h]

theorem onReaderLoad_previewCount (p : Page) (x y : Nat) (u : String)
    (h : previewCount (p.rows y).imgs ≤ 1) :
    previewCount ((onReaderLoad p x u).rows y).imgs ≤ 1 := by
  cases hfp : findPreview (p.rows x).imgs with
  | none =>
    have hq : onReaderLoad p x u
        = p.setRow x { p.rows x with imgs := newPreview u :: (p.rows x).imgs } := by
      simp [onReaderLoad, hfp]
    rw [hq, setRow_rows]
    by_cases hy : y = x
    · subst hy
      have h0 := previewCount_of_findPreview_none hfp
      simp only [previewCount] at h0
      simp [previewCount, newPreview, h0]
    · simpa [hy] using h
  | some old =>
    have hq : onReaderLoad p x u
        = p.setRow x { p.rows x with imgs := setPreviewSrc u (p.rows x).imgs } := by
      simp [onReaderLoad, hfp]
    rw [hq, setRow_rows]
    by_cases hy : y = x
    · subst hy
      simpa [previewCount_setPreviewSrc] using h
    · simpa [hy] using h

theorem onUploadDone_previewCount (p : Page) (x y : Nat) (o : FetchOutcome) :
    previewCount ((onUploadDone p x o).rows y).imgs = previewCount (p.rows y).imgs := by
  cases o with
  | failed err => simp [onUploadDone, Page.alert]
  | json d =>
    by_cases hs : d.success = true
    · cases hfp : findPreview (p.rows x).imgs with
      | none =>
        have hq : (onUploadDone p x (.json d)).rows
            = ((p.alert "Image uploaded").setRow x
                { saveDisplay := "none", files := (p.rows x).files,
                  imgs := finalImg ("/uploads/" ++ jsStr d.filename) :: (p.rows x).imgs }).rows := by
          simp [onUploadDone, hs, hfp, Page.alert]
        rw [hq, setRow_rows]
        by_cases hy : y = x
        · subst hy; simp [previewCount, finalImg]
        · simp [hy, Page.alert]
      | some old =>
        have hq : (onUploadDone p x (.json d)).rows
            = ((p.alert "Image uploaded").setRow x
                { saveDisplay := "none", files := (p.rows x).files,
                  imgs := setPreviewSrc ("/uploads/" ++ jsStr d.filename) (p.rows x).imgs }).rows := by
          simp [onUploadDone, hs, hfp, Page.alert]
        rw [hq, setRow_rows]
        by_cases hy : y = x
        · subst hy; simp [previewCount_setPreviewSrc]
        · simp [hy, Page.alert]
    · simp [onUploadDone, hs, Page.alert]

theorem step_previewCount (p : Page) (e : Event)
    (h : ∀ x : Nat, previewCount (p.rows x).imgs ≤ 1) :
    ∀ x : Nat, previewCount ((step p e).rows x).imgs ≤ 1 := by
  intro y
  cases e with
  | change x fs =>
    simp only [step]
    rw [onInputChange_imgs, setRow_rows]
    by_cases hy : y = x
    · subst hy; simpa using h y
    · simpa [hy] using h y
  | readerLoad x file => exact onReaderLoad_previewCount p x y _ (h y)
  | saveClick x =>
    have hq : (onSaveClick p x).rows = p.rows := by
      simp only [onSaveClick]
      cases (p.rows x).files <;> rfl
    simp only [step, hq]
    exact h y
  | uploadDone x o =>
    simp only [step]
    rw [onUploadDone_previewCount]
    exact h y
  | generateClick s => exact h y

theorem onReaderLoad_findPreview (p : Page) (x : Nat) (u : String) :
    ∃ node : Img, findPreview ((onReaderLoad p x u).rows x).imgs = some node ∧ node.src = u := by
  cases hfp : findPreview (p.rows x).imgs with
  | none =>
    refine ⟨newPreview u, ?_, rfl⟩
    simp [onReaderLoad, hfp, setRow_rows_same, findPreview, newPreview]
  | some old =>
    refine ⟨{ old with src := u }, ?_, rfl⟩
    have hq : ((onReaderLoad p x u).rows x).imgs = setPreviewSrc u (p.rows x).imgs := by
      simp [onReaderLoad, hfp, setRow_rows_same]
    rw [hq]
    exact findPreview_setPreviewSrc u _ _ hfp

theorem onUploadDone_findPreview (p : Page) (x : Nat) (d : UploadData) (f : String) (node : Img)
    (hs : d.success = true) (hf : d.filename = some f)
    (hn : findPreview (p.rows x).imgs = some node) :
    findPreview ((onUploadDone p x (.json d)).rows x).imgs
      = some { node with src := "/uploads/" ++ f } := by
  have hq : ((onUploadDone p x (.json d)).rows x).imgs
      = setPreviewSrc ("/uploads/" ++ f) (p.rows x).imgs := by
    simp [onUploadDone, hs, hf, Page.alert, hn, setRow_rows_same, jsStr]
  rw [hq]
  exact findPreview_setPreviewSrc _ _ _ hn

theorem onReaderLoad_resolveUrl (p : Page) (x : Nat) (u : String) :
    (onReaderLoad p x u).resolveUrl = p.resolveUrl := by
  simp only [onReaderLoad]
  cases findPreview (p.rows x).imgs <;> rfl

theorem onUploadDone_resolveUrl (p : Page) (x : Nat) (o : FetchOutcome) :
    (onUploadDone p x o).resolveUrl = p.resolveUrl := by
  cases o with
  | failed err => rfl
  | json d =>
    simp only [onUploadDone]
    by_cases hs : d.success = true
    · simp only [hs, if_true]
      split <;> rfl
    · simp [hs, Page.alert]

theorem step_resolveUrl (p : Page) (e : Event) : (step p e).resolveUrl = p.resolveUrl := by
  cases e with
  | change x fs =>
    simp only [step, onInputChange]
    split <;> rfl
  | readerLoad x file => exact onReaderLoad_resolveUrl p x _
  | saveClick x =>
    simp only [step, onSaveClick]
    split <;> rfl
  | uploadDone x o => exact onUploadDone_resolveUrl p x o
  | generateClick s => rfl

/-! ## Card generator: photo source -/

/-- C1, as stated, fails: after the usual upload for row 7 (select a file, preview, save,
response `{success: true, filename: "a.jpg"}`) the row still holds its `img.preview-temp`
node, whose `src` attribute is now the server path `/uploads/a.jpg`.  A generate click then
sets the photo source to the resolved URL of that path, `http://host/uploads/a.jpg` on a
page served from `http://host`: not the local data URL, not the empty string for the record
without image, and not `/uploads/old.jpg` for the record whose image is `old.jpg`. -/
theorem generate_after_upload_shows_server_path :
    (∃ node : Img, findPreview (uploadedPage.rows 7).imgs = some node ∧
      node.previewTemp = true ∧ node.src = "/uploads/a.jpg") ∧
    bareStudent.id = 7 ∧ bareStudent.image = none ∧
    (onGenerateClick uploadedPage bareStudent).modal.photoSrc
      = uploadedPage.resolveUrl "/uploads/a.jpg" ∧
    (onGenerateClick uploadedPage bareStudent).modal.photoSrc = "http://host/uploads/a.jpg" ∧
    (onGenerateClick uploadedPage bareStudent).modal.photoSrc ≠ photoFile.dataUrl ∧
    (onGenerateClick uploadedPage bareStudent).modal.photoSrc ≠ "" ∧
    fullStudent.id = 7 ∧ fullStudent.image = some "old.jpg" ∧
    (onGenerateClick uploadedPage fullStudent).modal.photoSrc = "http://host/uploads/a.jpg" ∧
    (onGenerateClick uploadedPage fullStudent).modal.photoSrc ≠ photoFile.dataUrl ∧
    (onGenerateClick uploadedPage fullStudent).modal.photoSrc ≠ "/uploads/" ++ "old.jpg" := by
  refine ⟨⟨{ newPreview photoFile.dataUrl with src := "/uploads/a.jpg" }, rfl, rfl, rfl⟩,
    rfl, rfl, rfl, rfl, ?_, ?_, rfl, rfl, rfl, ?_, ?_⟩ <;> decide

/-- C1, amended: a generate click for record `s` sets the source of the card photo to the
empty string when row `s.id` has no `img.preview-temp` and the record has no image (missing
or empty), to `/uploads/` followed by the image name when the row has no `img.preview-temp`
and the record names an image, and, when the row has an `img.preview-temp` node, to the
`src` property of that node, which is its `src` attribute resolved against the document
URL, whatever the record's image is.  That value is the local data URL when the previewer
wrote the attribute last (a data URL resolves to itself), and the resolved URL of
`/uploads/f` when a successful upload of `f` overwrote it. -/
theorem generate_photo_source (p : Page) (s : Student) :
    (findPreview (p.rows s.id).imgs = none → (s.image = none ∨ s.image = some "") →
      (onGenerateClick p s).modal.photoSrc = "") ∧
    (findPreview (p.rows s.id).imgs = none → ∀ img : String, s.image = some img → img ≠ "" →
      (onGenerateClick p s).modal.photoSrc = "/uploads/" ++ img) ∧
    (∀ node : Img, findPreview (p.rows s.id).imgs = some node →
      (onGenerateClick p s).modal.photoSrc = p.resolveUrl node.src) ∧
    (∀ dataUrl : String, p.resolveUrl dataUrl = dataUrl →
      (onGenerateClick (onReaderLoad p s.id dataUrl) s).modal.photoSrc = dataUrl) ∧
    (∀ (node : Img) (d : UploadData) (f : String),
      findPreview (p.rows s.id).imgs = some node → d.success = true → d.filename = some f →
      (onGenerateClick (onUploadDone p s.id (.json d)) s).modal.photoSrc
        = p.resolveUrl ("/uploads/" ++ f)) := by
  refine ⟨?_, ?_, ?_, ?_, ?_⟩
  · intro hp hi
    rcases hi with hi | hi <;> simp [onGenerateClick, photoSource, hp, hi, truthy]
  · intro hp img hi hne
    simp [onGenerateClick, photoSource, hp, hi, truthy, jsStr, hne]
  · intro node hp
    simp [onGenerateClick, photoSource, hp]
  · intro dataUrl hres
    obtain ⟨node, hn, hsrc⟩ := onReaderLoad_findPreview p s.id dataUrl
    simp [onGenerateClick, photoSource, hn, hsrc, onReaderLoad_resolveUrl, hres]
  · intro node d f hn hs hf
    have h := onUploadDone_findPreview p s.id d f node hs hf hn
    simp [onGenerateClick, photoSource, h, onUploadDone_resolveUrl]

/-- Witness for C1 amended: the cases on concrete pages served from `http://host`. -/
theorem generate_photo_source_witness :
    (onGenerateClick freshPage bareStudent).modal.photoSrc = "" ∧
    (onGenerateClick freshPage fullStudent).modal.photoSrc = "/uploads/" ++ "old.jpg" ∧
    (onGenerateClick previewPage fullStudent).modal.photoSrc
      = previewPage.resolveUrl (newPreview photoFile.dataUrl).src ∧
    (onGenerateClick (onReaderLoad freshPage fullStudent.id photoFile.dataUrl)
      fullStudent).modal.photoSrc = photoFile.dataUrl ∧
    (onGenerateClick (onUploadDone previewPage fullStudent.id (.json ⟨true, some "a.jpg", none⟩))
      fullStudent).modal.photoSrc = previewPage.resolveUrl ("/uploads/" ++ "a.jpg") :=
  ⟨(generate_photo_source freshPage bareStudent).1 rfl (Or.inl rfl),
   (generate_photo_source freshPage fullStudent).2.1 rfl "old.jpg" rfl (by decide),
   (generate_photo_source previewPage fullStudent).2.2.1 (newPreview photoFile.dataUrl) rfl,
   (generate_photo_source freshPage fullStudent).2.2.2.1 photoFile.dataUrl rfl,
   (generate_photo_source previewPage fullStudent).2.2.2.2 (newPreview photoFile.dataUrl)
     ⟨true, some "a.jpg", none⟩ "a.jpg" rfl rfl rfl⟩

/-! ## Image uploader -/

/-- C2: when the upload for student `x` settles with `success` true and filename `f`, the
save button of `x` is hidden and the thumbnail of row `x` has source `/uploads/f`: an
existing `img.preview-temp` node is reused (its `src` is overwritten, no node is added),
otherwise a new image with that source is prepended to the row. -/
theorem upload_success (p : Page) (x : Nat) (d : UploadData) (f : String)
    (hs : d.success = true) (hf : d.filename = some f) :
    ((onUploadDone p x (.json d)).rows x).saveDisplay = "none" ∧
    (∀ node : Img, findPreview (p.rows x).imgs = some node →
      ((onUploadDone p x (.json d)).rows x).imgs
          = setPreviewSrc ("/uploads/" ++ f) (p.rows x).imgs ∧
      findPreview ((onUploadDone p x (.json d)).rows x).imgs
          = some { node with src := "/uploads/" ++ f } ∧
      ((onUploadDone p x (.json d)).rows x).imgs.length = (p.rows x).imgs.length) ∧
    (findPreview (p.rows x).imgs = none →
      ((onUploadDone p x (.json d)).rows x).imgs
          = finalImg ("/uploads/" ++ f) :: (p.rows x).imgs ∧
      (finalImg ("/uploads/" ++ f)).src = "/uploads/" ++ f) := by
  refine ⟨?_, ?_, ?_⟩
  · simp only [onUploadDone, hs, if_true, Page.alert]
    cases hfp : findPreview (p.rows x).imgs <;> simp [hfp, setRow_rows_same]
  · intro node hn
    have h1 : ((onUploadDone p x (.json d)).rows x).imgs
        = setPreviewSrc ("/uploads/" ++ f) (p.rows x).imgs := by
      simp [onUploadDone, hs, hf, Page.alert, hn, setRow_rows_same, jsStr]
    refine ⟨h1, ?_, ?_⟩
    · rw [h1]; exact findPreview_setPreviewSrc _ _ _ hn
    · rw [h1]; exact length_setPreviewSrc _ _
  · intro hn
    refine ⟨?_, rfl⟩
    simp [onUploadDone, hs, hf, Page.alert, hn, setRow_rows_same, jsStr]

/-- Witness for C2: the response `{success: true, filename: "a.jpg"}` for student 7 on a page
whose row 7 shows a local preview. -/
theorem upload_success_witness :
    ((onUploadDone previewPage 7 (.json ⟨true, some "a.jpg", none⟩)).rows 7).saveDisplay
      = "none" ∧
    findPreview ((onUploadDone previewPage 7 (.json ⟨true, some "a.jpg", none⟩)).rows 7).imgs
      = some { newPreview photoFile.dataUrl with src := "/uploads/" ++ "a.jpg" } :=
  ⟨(upload_success previewPage 7 ⟨true, some "a.jpg", none⟩ "a.jpg" rfl rfl).1,
   ((upload_success previewPage 7 ⟨true, some "a.jpg", none⟩ "a.jpg" rfl rfl).2.1
      (newPreview photoFile.dataUrl) rfl).2.1⟩

/-- C3: a save click for student `x` while the file input of `x` holds no file shows the
message `Choose an image first`, issues no request and leaves the rest of the page state
as it was. -/
theorem save_without_file (p : Page) (x : Nat) (h : (p.rows x).files = []) :
    (onSaveClick p x).alerts = p.alerts ++ ["Choose an image first"] ∧
    (onSaveClick p x).fetches = p.fetches ∧
    (onSaveClick p x).rows = p.rows ∧
    (onSaveClick p x).modal = p.modal ∧
    (onSaveClick p x).reads = p.reads := by
  simp [onSaveClick, h, Page.alert]

/-- Witness for C3: a save click on row 7 of a freshly loaded page. -/
theorem save_without_file_witness :
    (onSaveClick freshPage 7).alerts = freshPage.alerts ++ ["Choose an image first"] ∧
    (onSaveClick freshPage 7).fetches = freshPage.fetches ∧
    (onSaveClick freshPage 7).rows = freshPage.rows ∧
    (onSaveClick freshPage 7).modal = freshPage.modal ∧
    (onSaveClick freshPage 7).reads = freshPage.reads :=
  save_without_file freshPage 7 rfl

/-- C4: when the upload for student `x` settles with `success` false and message `m`, or is
rejected with an error whose description is `err`, exactly one message is shown and it
contains `m` (respectively `err`); the rows (save button, images, file inputs), the modal and
the logs of requests and reads are unchanged. -/
theorem upload_failure (p : Page) (x : Nat) :
    (∀ (d : UploadData) (m : String), d.success = false → d.message = some m →
      (onUploadDone p x (.json d)).alerts = p.alerts ++ ["Upload failed: " ++ m] ∧
      m.data <:+: ("Upload failed: " ++ m).data ∧
      (onUploadDone p x (.json d)).rows = p.rows ∧
      (onUploadDone p x (.json d)).fetches = p.fetches ∧
      (onUploadDone p x (.json d)).modal = p.modal ∧
      (onUploadDone p x (.json d)).reads = p.reads) ∧
    (∀ err : String,
      (onUploadDone p x (.failed err)).alerts = p.alerts ++ ["Upload error: " ++ err] ∧
      err.data <:+: ("Upload error: " ++ err).data ∧
      (onUploadDone p x (.failed err)).rows = p.rows ∧
      (onUploadDone p x (.failed err)).fetches = p.fetches ∧
      (onUploadDone p x (.failed err)).modal = p.modal ∧
      (onUploadDone p x (.failed err)).reads = p.reads) := by
  refine ⟨?_, ?_⟩
  · intro d m hs hm
    refine ⟨?_, ?_, ?_, ?_, ?_, ?_⟩ <;>
      first
        | exact (List.suffix_append _ _).isInfix
        | simp [onUploadDone, hs, hm, Page.alert, jsStr]
  · intro err
    refine ⟨?_, ?_, ?_, ?_, ?_, ?_⟩ <;>
      first
        | exact (List.suffix_append _ _).isInfix
        | simp [onUploadDone, Page.alert]

/-- Witness for C4: the response `{success: false, message: "too large"}` for student 7 on a
page whose save button for 7 is visible. -/
theorem upload_failure_witness :
    (onUploadDone previewPage 7 (.json ⟨false, none, some "too large"⟩)).alerts
      = previewPage.alerts ++ ["Upload failed: " ++ "too large"] ∧
    (onUploadDone previewPage 7 (.json ⟨false, none, some "too large"⟩)).rows
      = previewPage.rows :=
  ⟨((upload_failure previewPage 7).1 ⟨false, none, some "too large"⟩ "too large" rfl rfl).1,
   ((upload_failure previewPage 7).1 ⟨false, none, some "too large"⟩ "too large" rfl rfl).2.2.1⟩

/-! ## PDF exporter -/

/-- C5: a download click whose two captures both resolve saves a document of exactly two
pages, the first holding the image of the front capture and the second that of the back
capture, and the image of the front is added before the capture of the back starts; when
either capture rejects nothing is saved and `pdf.save` is not among the calls made. -/
theorem export_two_pages (capture : Region → Option Canvas) (pageWidth : ℚ) (now : Nat) :
    (∀ c1 c2 : Canvas, capture .front = some c1 → capture .back = some c2 →
      (onDownloadClick capture pageWidth now).saved
        = some ("id_card_" ++ toString now ++ ".pdf",
                ⟨[[placeImage pageWidth c1], [placeImage pageWidth c2]]⟩) ∧
      (placeImage pageWidth c1).data = c1.data ∧
      (placeImage pageWidth c2).data = c2.data ∧
      (onDownloadClick capture pageWidth now).trace
        = [Op.capture .front, Op.addImage (placeImage pageWidth c1), Op.addPage,
           Op.capture .back, Op.addImage (placeImage pageWidth c2),
           Op.save ("id_card_" ++ toString now ++ ".pdf")]) ∧
    ((capture .front = none ∨ capture .back = none) →
      (onDownloadClick capture pageWidth now).saved = none ∧
      ∀ filename : String, Op.save filename ∉ (onDownloadClick capture pageWidth now).trace) := by
  refine ⟨?_, ?_⟩
  · intro c1 c2 h1 h2
    simp [onDownloadClick, captureAndAdd, h1, h2, Pdf.create, Pdf.addImage, Pdf.addPage,
      placeImage]
  · intro h
    cases hf : capture .front with
    | none => simp [onDownloadClick, captureAndAdd, hf]
    | some c1 =>
      have hb : capture .back = none := by
        rcases h with h | h
        · rw [hf] at h; cases h
        · exact h
      simp [onDownloadClick, captureAndAdd, hf, hb]

/-- Witness for C5: both captures resolve, and the back capture rejects. -/
theorem export_two_pages_witness :
    (onDownloadClick bothCaptured 446 1700000000000).saved
      = some ("id_card_" ++ toString 1700000000000 ++ ".pdf",
              ⟨[[placeImage 446 frontCanvas], [placeImage 446 backCanvas]]⟩) ∧
    (onDownloadClick backRejected 446 1700000000000).saved = none :=
  ⟨((export_two_pages bothCaptured 446 1700000000000).1 frontCanvas backCanvas rfl rfl).1,
   ((export_two_pages backRejected 446 1700000000000).2 (Or.inr rfl)).1⟩

/-- C10: on a page of width `W`, the image of a capture of width `w > 0` and height `h` is
added at offset (20, 20) with width `W - 40` and height `h * (W - 40) / w`, so that
placed height times `w` equals `h` times placed width; on a download click whose captures
both resolve, the image on page one and the image on page two are both placed this way. -/
theorem placed_image_keeps_aspect (capture : Region → Option Canvas) (W : ℚ) (now : Nat)
    (c1 c2 : Canvas) (h1 : capture .front = some c1) (h2 : capture .back = some c2)
    (hw1 : 0 < c1.width) (hw2 : 0 < c2.width) :
    ∃ (filename : String) (im1 im2 : Placed),
      (onDownloadClick capture W now).saved = some (filename, ⟨[[im1], [im2]]⟩) ∧
      im1 = placeImage W c1 ∧ im2 = placeImage W c2 ∧
      (im1.x = 20 ∧ im1.y = 20 ∧ im1.w = W - 40 ∧ im1.h = c1.height * (W - 40) / c1.width ∧
        im1.h * c1.width = c1.height * im1.w) ∧
      (im2.x = 20 ∧ im2.y = 20 ∧ im2.w = W - 40 ∧ im2.h = c2.height * (W - 40) / c2.width ∧
        im2.h * c2.width = c2.height * im2.w) := by
  exact ⟨_, placeImage W c1, placeImage W c2,
    download_saved_of_both capture W now c1 c2 h1 h2, rfl, rfl,
    ⟨rfl, rfl, rfl, rfl, placeImage_aspect W c1 hw1⟩,
    ⟨rfl, rfl, rfl, rfl, placeImage_aspect W c2 hw2⟩⟩

/-- Witness for C10: a 600 by 400 front and a 600 by 300 back on a page 446 wide. -/
theorem placed_image_keeps_aspect_witness :
    ∃ (filename : String) (im1 im2 : Placed),
      (onDownloadClick bothCaptured 446 1700000000000).saved
        = some (filename, ⟨[[im1], [im2]]⟩) ∧
      im1 = placeImage 446 frontCanvas ∧ im2 = placeImage 446 backCanvas ∧
      (im1.x = 20 ∧ im1.y = 20 ∧ im1.w = 446 - 40 ∧
        im1.h = frontCanvas.height * (446 - 40) / frontCanvas.width ∧
        im1.h * frontCanvas.width = frontCanvas.height * im1.w) ∧
      (im2.x = 20 ∧ im2.y = 20 ∧ im2.w = 446 - 40 ∧
        im2.h = backCanvas.height * (446 - 40) / backCanvas.width ∧
        im2.h * backCanvas.width = backCanvas.height * im2.w) :=
  placed_image_keeps_aspect bothCaptured 446 1700000000000 frontCanvas backCanvas rfl rfl
    (by simp [frontCanvas]) (by simp [backCanvas])

/-! ## Image previewer -/

/-- C6, as stated, fails: on a page where the save button of row 7 is hidden and its file
input is empty, a change event makes the save button visible, so the page state changes. -/
theorem change_without_file_shows_save :
    (hiddenPage.rows 7).files = [] ∧
    (hiddenPage.rows 7).saveDisplay = "none" ∧
    ((onInputChange hiddenPage 7).rows 7).saveDisplay = "inline-block" ∧
    onInputChange hiddenPage 7 ≠ hiddenPage := by
  refine ⟨rfl, rfl, rfl, ?_⟩
  intro h
  have h7 := congrArg (fun q : Page => (q.rows 7).saveDisplay) h
  simp [onInputChange, hiddenPage, freshPage, Page.setRow] at h7

/-- C6, amended: a change event on the file input of student `x` while no file is selected
sets the display of the save button of `x` to `inline-block` and does nothing else: the
images and the file input of row `x`, every other row, the modal and the logs of messages,
requests and reads are as before; when the save button was already shown that way the page
state is unchanged. -/
theorem change_without_file (p : Page) (x : Nat) (h : (p.rows x).files = []) :
    ((onInputChange p x).rows x).saveDisplay = "inline-block" ∧
    ((onInputChange p x).rows x).imgs = (p.rows x).imgs ∧
    ((onInputChange p x).rows x).files = (p.rows x).files ∧
    (∀ y : Nat, y ≠ x → (onInputChange p x).rows y = p.rows y) ∧
    (onInputChange p x).modal = p.modal ∧
    (onInputChange p x).alerts = p.alerts ∧
    (onInputChange p x).fetches = p.fetches ∧
    (onInputChange p x).reads = p.reads ∧
    ((p.rows x).saveDisplay = "inline-block" → onInputChange p x = p) := by
  have hq : onInputChange p x = p.setRow x { p.rows x with saveDisplay := "inline-block" } := by
    simp [onInputChange, h]
  rw [hq]
  refine ⟨?_, ?_, ?_, ?_, rfl, rfl, rfl, rfl, ?_⟩
  · simp [setRow_rows_same]
  · simp [setRow_rows_same]
  · simp [setRow_rows_same]
  · intro y hy
    exact setRow_rows_ne p x y _ hy
  · intro hd
    have hr : ({ p.rows x with saveDisplay := "inline-block" } : Row) = p.rows x := by
      rw [← hd]
    simp [Page.setRow, hr]

/-- Witness for C6 amended: a change event without a file on row 7 of `hiddenPage`. -/
theorem change_without_file_witness :
    ((onInputChange hiddenPage 7).rows 7).saveDisplay = "inline-block" ∧
    ((onInputChange hiddenPage 7).rows 7).imgs = (hiddenPage.rows 7).imgs :=
  ⟨(change_without_file hiddenPage 7 rfl).1, (change_without_file hiddenPage 7 rfl).2.1⟩

/-- C8: a change event on the file input of student `x` holding `file` first makes the save
button of `x` visible and starts a read of `file`; when that read completes, on whatever
page state `later` exists then, row `x` contains an `img.preview-temp` node whose source is
the data URL of `file`: a preview node already in the row is reused (its `src` is
overwritten and the row keeps its number of images), otherwise a new node is prepended. -/
theorem change_with_file (p : Page) (x : Nat) (file : File) (rest : List File)
    (h : (p.rows x).files = file :: rest) :
    ((onInputChange p x).rows x).saveDisplay = "inline-block" ∧
    (onInputChange p x).reads = p.reads ++ [(x, file)] ∧
    ∀ later : Page,
      (∃ node : Img, findPreview ((onReaderLoad later x file.dataUrl).rows x).imgs = some node ∧
        node ∈ ((onReaderLoad later x file.dataUrl).rows x).imgs ∧
        node.src = file.dataUrl) ∧
      (∀ old : Img, findPreview (later.rows x).imgs = some old →
        ((onReaderLoad later x file.dataUrl).rows x).imgs
          = setPreviewSrc file.dataUrl (later.rows x).imgs ∧
        ((onReaderLoad later x file.dataUrl).rows x).imgs.length = (later.rows x).imgs.length ∧
        previewCount ((onReaderLoad later x file.dataUrl).rows x).imgs
          = previewCount (later.rows x).imgs) ∧
      (findPreview (later.rows x).imgs = none →
        ((onReaderLoad later x file.dataUrl).rows x).imgs
          = newPreview file.dataUrl :: (later.rows x).imgs) := by
  refine ⟨?_, ?_, ?_⟩
  · simp [onInputChange, h, setRow_rows_same, Page.setRow]
  · simp [onInputChange, h, Page.setRow]
  · intro later
    cases hfp : findPreview (later.rows x).imgs with
    | none =>
      have hq : ((onReaderLoad later x file.dataUrl).rows x).imgs
          = newPreview file.dataUrl :: (later.rows x).imgs := by
        simp [onReaderLoad, hfp, setRow_rows_same]
      refine ⟨⟨newPreview file.dataUrl, ?_, ?_, rfl⟩, ?_, fun _ => hq⟩
      · rw [hq]; simp [findPreview, newPreview]
      · rw [hq]; exact List.mem_cons_self _ _
      · intro old ho; cases ho
    | some old =>
      have hq : ((onReaderLoad later x file.dataUrl).rows x).imgs
          = setPreviewSrc file.dataUrl (later.rows x).imgs := by
        simp [onReaderLoad, hfp, setRow_rows_same]
      have hf := findPreview_setPreviewSrc file.dataUrl _ _ hfp
      refine ⟨⟨{ old with src := file.dataUrl }, ?_, ?_, rfl⟩, ?_, ?_⟩
      · rw [hq]; exact hf
      · rw [hq]; exact (findPreview_some_mem hf).1
      · intro old2 _
        refine ⟨hq, ?_, ?_⟩
        · rw [hq]; exact length_setPreviewSrc _ _
        · rw [hq]; exact previewCount_setPreviewSrc _ _
      · intro hn; cases hn

/-- Witness for C8: `photoFile` is selected on row 7 of a page already showing a preview
there; after the read the row still has one image, now with the data URL of the file. -/
theorem change_with_file_witness :
    ((onInputChange previewPage 7).rows 7).saveDisplay = "inline-block" ∧
    (onInputChange previewPage 7).reads = previewPage.reads ++ [(7, photoFile)] ∧
    ((onReaderLoad (onInputChange previewPage 7) 7 photoFile.dataUrl).rows 7).imgs.length
      = ((onInputChange previewPage 7).rows 7).imgs.length :=
  ⟨(change_with_file previewPage 7 photoFile [] rfl).1,
   (change_with_file previewPage 7 photoFile [] rfl).2.1,
   (((change_with_file previewPage 7 photoFile [] rfl).2.2 (onInputChange previewPage 7)).2.1
      (newPreview photoFile.dataUrl) rfl).2.1⟩

/-! ## Row image invariant -/

/-- C7, as stated, fails: from a freshly loaded page (no row holds an image), the events
select a file for row 7, click save, upload response `{success: true, filename: "a.jpg"}`,
read completion leave row 7 with two image nodes; the read and the request answered are
the ones the script started.  Likewise a read completing on a row that holds one thumbnail
without the class `preview-temp` adds a second image. -/
theorem row_images_can_double :
    (∀ x : Nat, (freshPage.rows x).imgs.length ≤ 1) ∧
    (7, photoFile) ∈ (run freshPage (uploadBeforeRead.take 1)).reads ∧
    (7, photoFile) ∈ (run freshPage (uploadBeforeRead.take 2)).fetches ∧
    ((run freshPage uploadBeforeRead).rows 7).imgs
      = [newPreview photoFile.dataUrl, finalImg "/uploads/a.jpg"] ∧
    ¬ ((run freshPage uploadBeforeRead).rows 7).imgs.length ≤ 1 ∧
    (∀ x : Nat, (thumbPage.rows x).imgs.length ≤ 1) ∧
    ¬ ((run thumbPage [.change 7 [photoFile], .readerLoad 7 photoFile]).rows 7).imgs.length
        ≤ 1 := by
  refine ⟨fun _ => Nat.zero_le _, ?_, ?_, ?_, ?_, ?_, ?_⟩
  · simp [run, uploadBeforeRead, step, onInputChange, Page.setRow, freshPage]
  · simp [run, uploadBeforeRead, step, onInputChange, onSaveClick, Page.setRow, freshPage]
  · rfl
  · decide
  · intro x
    by_cases hx : x = 7
    · subst hx; simp [thumbPage, Page.setRow]
    · simp [thumbPage, freshPage, setRow_rows, hx]
  · decide

/-- C7, amended: starting from a page in which every student row has at most one
`img.preview-temp` node, after any sequence of file-input change, file-read completion,
save-click, upload response and generate-click events every student row still has at most
one `img.preview-temp` node. -/
theorem preview_nodes_at_most_one (p : Page) (evs : List Event)
    (h : ∀ x : Nat, previewCount (p.rows x).imgs ≤ 1) :
    ∀ x : Nat, previewCount ((run p evs).rows x).imgs ≤ 1 := by
  induction evs generalizing p with
  | nil => exact h
  | cons e rest ih =>
    have hs := step_previewCount p e h
    simpa [run] using ih (step p e) hs

/-- Witness for C7 amended: row 7 after the sequence `uploadBeforeRead` on a freshly loaded
page, whose rows hold no image at all. -/
theorem preview_nodes_at_most_one_witness :
    previewCount ((run freshPage uploadBeforeRead).rows 7).imgs ≤ 1 :=
  preview_nodes_at_most_one freshPage uploadBeforeRead (fun _ => Nat.zero_le _) 7

/-! ## Card generator: text fields -/

/-- C9, as stated, fails: for a record whose emergency contact and address are present but
empty, the modal shows `N/A` in both fields, not the record's (empty) value. -/
theorem generate_empty_contact_shows_placeholder :
    emptyContactStudent.emergency_contact = some "" ∧
    emptyContactStudent.address = some "" ∧
    (onGenerateClick freshPage emptyContactStudent).modal.emergency = "N/A" ∧
    (onGenerateClick freshPage emptyContactStudent).modal.address = "N/A" ∧
    (onGenerateClick freshPage emptyContactStudent).modal.emergency
      ≠ emptyContactStudent.emergency_contact.getD "N/A" ∧
    (onGenerateClick freshPage emptyContactStudent).modal.address
      ≠ emptyContactStudent.address.getD "N/A" := by
  refine ⟨rfl, rfl, rfl, rfl, ?_, ?_⟩ <;> decide

/-- C9, amended: a generate click for record `s` shows in name, department and roll number
the record's value, or the empty string when the field is absent; in emergency contact and
address it shows the record's value when that is present and not empty, and `N/A` when the
field is absent or empty.  All five fields are overwritten, so the result is the same
whatever the modal showed before. -/
theorem generate_text_fields (p : Page) (s : Student) :
    (onGenerateClick p s).modal.name = s.name.getD "" ∧
    (onGenerateClick p s).modal.dept = s.department.getD "" ∧
    (onGenerateClick p s).modal.roll = s.roll_no.getD "" ∧
    (onGenerateClick p s).modal.emergency
      = (if s.emergency_contact = none ∨ s.emergency_contact = some "" then "N/A"
         else s.emergency_contact.getD "") ∧
    (onGenerateClick p s).modal.address
      = (if s.address = none ∨ s.address = some "" then "N/A" else s.address.getD "") ∧
    ∀ before : Modal,
      (onGenerateClick { p with modal := before } s).modal = (onGenerateClick p s).modal := by
  have hor : ∀ v : Option String, jsOr v "" = v.getD "" := by
    intro v
    cases v with
    | none => rfl
    | some t =>
      by_cases ht : t = ""
      · simp [jsOr, ht]
      · simp [jsOr, ht]
  have hna : ∀ v : Option String,
      jsOr v "N/A" = (if v = none ∨ v = some "" then "N/A" else v.getD "") := by
    intro v
    cases v with
    | none => simp [jsOr]
    | some t =>
      by_cases ht : t = ""
      · simp [jsOr, ht]
      · simp [jsOr, ht]
  exact ⟨hor _, hor _, hor _, hna _, hna _, fun _ => rfl⟩

end AdminPage
